import Mathlib

/-!
Shallow embedding of the ArtConnect AI opportunity-scoring pipeline
(`app.py`): schema normalization (`load_data`), the four factor
extractors, the opportunity scorer (`preprocess_and_score`), the reply
drafter (`generate_reply`), the decision log (`log_action`) and the
approval-rate metric.

External capabilities are passed as explicit parameters:
* the VADER sentiment analyzer becomes `compound : String → ℚ`
  (the compound polarity of a text);
* `datetime.strptime` becomes `parse : String → Option ℤ` (a parsed
  timestamp, in seconds; `none` on parse failure) and the wall clock
  becomes `now : ℤ`, with Python `timedelta.days` modelled as floor
  division of the second difference by 86400.

Real arithmetic is modelled exactly over `ℚ`.  A field that may be
missing from a source record (pandas `NaN`) is modelled with `Option`;
Python `str()` applied to such a missing value yields the string "nan",
which `strOfText` reproduces.
-/

namespace ArtConnect

/-- An interaction record of the combined batch.  `user_handle` and
`text_content` are `Option` so that a record missing those source fields
(a pandas `NaN`) can be represented. -/
structure Interaction where
  interaction_id : String
  platform : String
  timestamp : String
  user_handle : Option String
  user_followers : ℚ
  text_content : Option String
deriving DecidableEq

/-- An interaction together with the computed factor columns and the
opportunity score, as added by `preprocess_and_score`. -/
structure ScoredInteraction extends Interaction where
  keyword_factor : ℚ
  sentiment_factor : ℚ
  user_influence : ℚ
  recency_factor : ℚ
  opportunity_score : ℚ
deriving DecidableEq

/-- Python `str(x)` on a possibly-missing (pandas `NaN`) text value:
the string itself when present, the string "nan" when missing. -/
def strOfText : Option String → String
  | some t => t
  | none => "nan"

/-- The fixed keyword list `HIGH_VALUE_KEYWORDS` of `app.py`. -/
def HIGH_VALUE_KEYWORDS : List String :=
  ["commission", "buy", "price", "prints", "print",
   "gallery", "curator", "collector", "feature", "represent"]

/-- Python's `sub in s` substring test. -/
def containsSubstr (s sub : String) : Bool :=
  decide (sub.toList <:+: s.toList)

/-- Python `str.lower()` (over the ASCII range relevant to the keyword
lists), written as a structural map over the characters. -/
def lower (s : String) : String :=
  ⟨s.data.map Char.toLower⟩

/-- `load_data`: reads the two sources and concatenates them
(`pd.concat`), preserving every record of both in order.  No field
validation is performed. -/
def load_data (insta_df twitter_df : List Interaction) : List Interaction :=
  insta_df ++ twitter_df

/-- `keyword_factor`: 1 if any high-value keyword occurs in the
lowercased text, else 0. -/
def keyword_factor (text : String) : ℚ :=
  if HIGH_VALUE_KEYWORDS.any (fun kw => containsSubstr (lower text) kw) then 1 else 0

/-- `sentiment_factor`, as a function of the analyzer's compound
polarity: non-positive compound gives 0, positive compound `c` gives
`(c + 1) / 2`. -/
def sentiment_factor (compound : ℚ) : ℚ :=
  if compound ≤ 0 then 0 else (compound + 1) / 2

/-- `df["user_followers"].max()`: the largest follower count of the
batch (pandas yields `NaN` on an empty batch; modelled as 0, which the
positivity guard of `max_followers` treats the same way). -/
def batch_max_followers (df : List Interaction) : ℚ :=
  (df.map Interaction.user_followers).foldr max 0

/-- The divisor used for `user_influence`: the batch maximum when it is
positive, else 1. -/
def max_followers (df : List Interaction) : ℚ :=
  if batch_max_followers df > 0 then batch_max_followers df else 1

/-- `user_influence`: follower count normalized by `max_followers`. -/
def user_influence (df : List Interaction) (r : Interaction) : ℚ :=
  r.user_followers / max_followers df

/-- `recency_factor`: 0.5 when the timestamp does not parse; otherwise
piecewise in the whole-day difference `(now - ts).days` (floor division
of the second difference by 86400): 1 when ≤ 0, 0 when ≥ the window,
else linear decay. -/
def recency_factor (parse : String → Option ℤ) (now : ℤ)
    (days_window : ℤ) (ts_str : String) : ℚ :=
  match parse ts_str with
  | none => 1/2
  | some ts =>
    let days_diff : ℤ := Int.fdiv (now - ts) 86400
    if days_diff ≤ 0 then 1
    else if days_diff ≥ days_window then 0
    else 1 - (days_diff : ℚ) / (days_window : ℚ)

/-- The weighted raw score
`k * W_K + s * W_S + u * W_U + r * W_R` with the fixed weights
0.50 / 0.30 / 0.15 / 0.05. -/
def raw_score (k s u r : ℚ) : ℚ :=
  k * 0.50 + s * 0.30 + u * 0.15 + r * 0.05

/-- `clip(lo, hi)` of pandas on one value. -/
def clamp (x lo hi : ℚ) : ℚ :=
  min (max x lo) hi

/-- Rounding to the nearest integer, ties to even
(numpy / pandas `round`). -/
def roundHalfToEven (x : ℚ) : ℤ :=
  let n := ⌊x⌋
  let r := x - n
  if r < 1/2 then n
  else if 1/2 < r then n + 1
  else if n % 2 = 0 then n else n + 1

/-- `.round(1)`: round to one decimal place. -/
def round1 (x : ℚ) : ℚ :=
  (roundHalfToEven (x * 10) : ℚ) / 10

/-- The opportunity score of one record, given its four factors:
`(raw_score * 100).clip(0, 100).round(1)`. -/
def opportunity_score (k s u r : ℚ) : ℚ :=
  round1 (clamp (raw_score k s u r * 100) 0 100)

/-- Scoring of one record inside `preprocess_and_score`: compute the
four factor columns and the opportunity score. -/
def score_record (compound : String → ℚ) (parse : String → Option ℤ)
    (now : ℤ) (df : List Interaction) (r : Interaction) : ScoredInteraction :=
  let k := keyword_factor (strOfText r.text_content)
  let sf := sentiment_factor (compound (strOfText r.text_content))
  let u := user_influence df r
  let rc := recency_factor parse now 30 r.timestamp
  { toInteraction := r
    keyword_factor := k
    sentiment_factor := sf
    user_influence := u
    recency_factor := rc
    opportunity_score := opportunity_score k sf u rc }

/-- `preprocess_and_score`, scoring stage: every record of the batch is
scored (the final `sort_values` line of the source then reorders the
rows by score, a permutation that leaves every per-record field
unchanged; the ordering itself is delegated to the pandas sorting
routine and is not modelled here). -/
def preprocess_and_score (compound : String → ℚ) (parse : String → Option ℤ)
    (now : ℤ) (df : List Interaction) : List ScoredInteraction :=
  df.map (score_record compound parse now df)

/-- The inline keyword list of the first branch of `generate_reply`. -/
def COMMISSION_KEYWORDS : List String :=
  ["commission", "buy", "price", "prints", "print"]

/-- The inline keyword list of the second branch of `generate_reply`. -/
def GALLERY_KEYWORDS : List String :=
  ["gallery", "curator", "collector", "represent", "feature"]

/-- The commission-oriented reply template of `generate_reply`,
addressed to `user` (string contents taken verbatim from the source). -/
def commission_reply (user : String) : String :=
  "Thank you so much for your interest, " ++ user ++
    "! I‚Äôd be happy to talk more about a commission or print options. " ++
    "Could you please send me a message or email with a bit more detail about what you have in mind?"

/-- The gallery/representation-oriented reply template of
`generate_reply`. -/
def gallery_reply (user : String) : String :=
  "Hi " ++ user ++
    ", I really appreciate you reaching out. " ++
    "I‚Äôd love to learn more about your gallery/collection and see if my work could be a good fit. " ++
    "Feel free to contact me so we can talk more about it."

/-- The generic appreciation reply template of `generate_reply`. -/
def generic_reply (user : String) : String :=
  "Thank you so much, " ++ user ++
    "! I really appreciate your kind words and support. " ++
    "This piece was inspired by my love for color and texture, " ++
    "so it means a lot that it resonated with you."

/-- The user value of `row.get("user_handle", "@collector")` as the
reply f-string renders it.  Rows of the scored DataFrame always carry
the `user_handle` column (after `pd.concat`), so `Series.get` returns
the stored value even when it is the missing marker `NaN` — the
"@collector" default fires only for a key absent from the row's index,
which does not happen here.  The f-string then renders a present `NaN`
as "nan" and any present string (the empty string included) as
itself. -/
def replyHandle : Option String → String
  | some u => u
  | none => "nan"

/-- `generate_reply`: the reply is addressed to `replyHandle` of the
row's handle, and the first matching keyword branch wins. -/
def generate_reply (row : Interaction) : String :=
  let user := replyHandle row.user_handle
  let text := lower (strOfText row.text_content)
  if COMMISSION_KEYWORDS.any (fun kw => containsSubstr text kw) then
    commission_reply user
  else if GALLERY_KEYWORDS.any (fun kw => containsSubstr text kw) then
    gallery_reply user
  else
    generic_reply user

/-- One row of the decision log (`actions_log.csv`), in the column
order used by `log_action`. -/
structure LogEntry where
  timestamp : String
  interaction_id : String
  platform : String
  user_handle : String
  action : String
  original_reply : String
  final_reply : String
deriving DecidableEq

/-- `row["user_handle"]` as serialized to the log: the handle when
present, empty when the source value is missing (pandas `NaN`). -/
def handleStr : Option String → String
  | some u => u
  | none => ""

/-- `log_action`: reads the log, appends one new row built from the
interaction and the given action/replies, and writes it back.  The
decision timestamp (`datetime.now().strftime(...)`) is passed in as
`now_str`.  No validation of `action` is performed. -/
def log_action (logs : List LogEntry) (row : Interaction)
    (action original_reply final_reply now_str : String) : List LogEntry :=
  logs ++ [{ timestamp := now_str
             interaction_id := row.interaction_id
             platform := row.platform
             user_handle := handleStr row.user_handle
             action := action
             original_reply := original_reply
             final_reply := final_reply }]

/-- `(logs_df["action"] == "APPROVE").sum()`. -/
def approve_count (logs : List LogEntry) : ℕ :=
  (logs.filter (fun e => e.action == "APPROVE")).length

/-- `(logs_df["action"] == "EDIT").sum()`. -/
def edit_count (logs : List LogEntry) : ℕ :=
  (logs.filter (fun e => e.action == "EDIT")).length

/-- `(logs_df["action"] == "REJECT").sum()`. -/
def reject_count (logs : List LogEntry) : ℕ :=
  (logs.filter (fun e => e.action == "REJECT")).length

/-- `acted_on_count = approve_count + edit_count + reject_count`. -/
def acted_on_count (logs : List LogEntry) : ℕ :=
  approve_count logs + edit_count logs + reject_count logs

/-- The approval-rate metric:
`(approve_count + edit_count) / acted_on_count * 100` when any action
was logged, else 0.0. -/
def approval_rate (logs : List LogEntry) : ℚ :=
  if 0 < acted_on_count logs then
    ((approve_count logs : ℚ) + (edit_count logs : ℚ)) / (acted_on_count logs : ℚ) * 100
  else 0

/-- Concrete records used by witnesses and counterexamples. -/
def recA : Interaction :=
  ⟨"INS-0001", "Instagram", "2025-01-01 10:00:00", some "@ArtLover1", 0, some "Love this!"⟩

def recB : Interaction :=
  ⟨"INS-0002", "Instagram", "2025-01-02 10:00:00", some "@ColorChaser2", 100, some "Great colors!"⟩

def recC : Interaction :=
  ⟨"TWI-0001", "Twitter", "2025-01-03 10:00:00", some "@CuratorMike3", 200, some "Stunning!"⟩

/-- A record whose required field `text_content` is missing from the
source (pandas `NaN`). -/
def rec_missing_text : Interaction :=
  ⟨"TWI-0002", "Twitter", "not-a-date", some "@DesignGeek4", 5, none⟩

/-- A record whose `user_handle` is present but empty. -/
def rec_empty_handle : Interaction :=
  ⟨"INS-0003", "Instagram", "2025-01-04 10:00:00", some "", 10, some "What is the price for a commission?"⟩

/-- A record with no `user_handle` and a commission keyword. -/
def rec_no_handle : Interaction :=
  ⟨"INS-0004", "Instagram", "2025-01-05 10:00:00", none, 10, some "Do you sell prints of this artwork?"⟩

/-- A sentiment oracle and a timestamp parser used for concrete
evaluations: compound polarity 0 for every text, parse failure for
every timestamp string. -/
def compound0 : String → ℚ := fun _ => 0

def parse0 : String → Option ℤ := fun _ => none

end ArtConnect

namespace ArtConnect

lemma containsSubstr_iff (s sub : String) :
    containsSubstr s sub = true ↔ sub.toList <:+: s.toList := by
  simp [containsSubstr]

lemma keyword_any_iff (text : String) :
    (HIGH_VALUE_KEYWORDS.any fun kw => containsSubstr (lower text) kw) = true ↔
      ∃ kw ∈ HIGH_VALUE_KEYWORDS, kw.toList <:+: (lower text).toList := by
  simp [List.any_eq_true, containsSubstr_iff]

/-- Claim C5: for every text string, `keyword_factor` returns 1 exactly
when the lowercased text contains one of the ten fixed keywords as a
substring, and returns 0 otherwise. -/
theorem keyword_factor_spec (text : String) :
    (keyword_factor text = 1 ↔
      ∃ kw ∈ HIGH_VALUE_KEYWORDS, kw.toList <:+: (lower text).toList) ∧
    (keyword_factor text = 0 ↔
      ¬ ∃ kw ∈ HIGH_VALUE_KEYWORDS, kw.toList <:+: (lower text).toList) := by
  unfold keyword_factor
  by_cases h : (HIGH_VALUE_KEYWORDS.any fun kw => containsSubstr (lower text) kw) = true
  · rw [if_pos h]
    have hp := (keyword_any_iff text).mp h
    constructor
    · exact ⟨fun _ => hp, fun _ => rfl⟩
    · constructor
      · intro h10; exact absurd h10 (by norm_num)
      · intro hnp; exact absurd hp hnp
  · rw [if_neg h]
    have hnp : ¬ ∃ kw ∈ HIGH_VALUE_KEYWORDS, kw.toList <:+: (lower text).toList :=
      fun hp => h ((keyword_any_iff text).mpr hp)
    constructor
    · constructor
      · intro h01; exact absurd h01 (by norm_num)
      · intro hp; exact absurd hp hnp
    · exact ⟨fun _ => hnp, fun _ => rfl⟩

/-- Witness for C5 at the concrete matching string
"Do you sell Prints of this artwork?". -/
theorem keyword_factor_spec_witness :
    (keyword_factor "Do you sell Prints of this artwork?" = 1 ↔
      ∃ kw ∈ HIGH_VALUE_KEYWORDS,
        kw.toList <:+: (lower "Do you sell Prints of this artwork?").toList) ∧
    (keyword_factor "Do you sell Prints of this artwork?" = 0 ↔
      ¬ ∃ kw ∈ HIGH_VALUE_KEYWORDS,
        kw.toList <:+: (lower "Do you sell Prints of this artwork?").toList) :=
  keyword_factor_spec "Do you sell Prints of this artwork?"

/-- Claim C6: a compound polarity in [-1, 1] maps to sentiment factor 0
when non-positive, and to `(c + 1) / 2` when positive, which then lies
in (1/2, 1]. -/
theorem sentiment_factor_spec (c : ℚ) (h1 : -1 ≤ c) (h2 : c ≤ 1) :
    (c ≤ 0 → sentiment_factor c = 0) ∧
    (0 < c → sentiment_factor c = (c + 1) / 2 ∧
      1/2 < sentiment_factor c ∧ sentiment_factor c ≤ 1) := by
  constructor
  · intro hc
    simp [sentiment_factor, hc]
  · intro hc
    have hnc : ¬ c ≤ 0 := not_le.mpr hc
    have he : sentiment_factor c = (c + 1) / 2 := by
      unfold sentiment_factor
      rw [if_neg hnc]
    refine ⟨he, ?_, ?_⟩ <;> rw [he] <;> linarith

/-- Witness for C6 at the concrete compound 3/4. -/
theorem sentiment_factor_spec_witness :
    (-1 ≤ (3/4 : ℚ) ∧ (3/4 : ℚ) ≤ 1) ∧
    (0 < (3/4 : ℚ) → sentiment_factor (3/4) = ((3/4 : ℚ) + 1) / 2 ∧
      1/2 < sentiment_factor (3/4) ∧ sentiment_factor (3/4) ≤ 1) :=
  ⟨⟨by norm_num, by norm_num⟩,
    (sentiment_factor_spec (3/4) (by norm_num) (by norm_num)).2⟩

lemma le_foldr_max {l : List ℚ} {a : ℚ} (c : ℚ) (ha : a ∈ l) :
    a ≤ l.foldr max c := by
  induction l with
  | nil => cases ha
  | cons b t ih =>
    rcases List.mem_cons.mp ha with h | h
    · subst h; exact le_max_left _ _
    · exact le_trans (ih h) (le_max_right _ _)

lemma init_le_foldr_max (l : List ℚ) (c : ℚ) : c ≤ l.foldr max c := by
  induction l with
  | nil => exact le_refl c
  | cons b t ih => exact le_trans ih (le_max_right _ _)

lemma mem_le_batch_max {df : List Interaction} {r : Interaction} (hr : r ∈ df) :
    r.user_followers ≤ batch_max_followers df :=
  le_foldr_max 0 (List.mem_map_of_mem Interaction.user_followers hr)

lemma batch_max_nonneg (df : List Interaction) : 0 ≤ batch_max_followers df :=
  init_le_foldr_max _ 0

/-- Claim C7: with non-negative follower counts, `user_influence` is the
follower count divided by the batch maximum (divisor 1 when the maximum
is 0), always lies in [0, 1], and is 0 for every record of an all-zero
batch. -/
theorem user_influence_spec (df : List Interaction) (r : Interaction)
    (hr : r ∈ df) (hnn : ∀ x ∈ df, 0 ≤ x.user_followers) :
    (0 < batch_max_followers df →
      user_influence df r = r.user_followers / batch_max_followers df) ∧
    (batch_max_followers df = 0 →
      user_influence df r = r.user_followers / 1) ∧
    0 ≤ user_influence df r ∧ user_influence df r ≤ 1 ∧
    ((∀ x ∈ df, x.user_followers = 0) → user_influence df r = 0) := by
  have hf0 : 0 ≤ r.user_followers := hnn r hr
  have hfm : r.user_followers ≤ batch_max_followers df := mem_le_batch_max hr
  rcases lt_or_eq_of_le (batch_max_nonneg df) with hpos | hzero
  · have hmax : max_followers df = batch_max_followers df := if_pos hpos
    have hui : user_influence df r = r.user_followers / batch_max_followers df := by
      rw [user_influence, hmax]
    refine ⟨fun _ => hui, fun hz => absurd hz (ne_of_gt hpos), ?_, ?_, ?_⟩
    · rw [hui]; exact div_nonneg hf0 (le_of_lt hpos)
    · rw [hui]; exact (div_le_one hpos).mpr hfm
    · intro hall
      rw [hui, hall r hr, zero_div]
  · have hzero' : batch_max_followers df = 0 := hzero.symm
    have hmax : max_followers df = 1 := by
      rw [max_followers, if_neg (by rw [hzero']; exact lt_irrefl 0)]
    have hr0 : r.user_followers = 0 := le_antisymm (hzero' ▸ hfm) hf0
    have hui : user_influence df r = 0 := by
      rw [user_influence, hmax, hr0, zero_div]
    refine ⟨fun hp => absurd hp (by rw [hzero']; exact lt_irrefl 0), ?_, ?_, ?_, fun _ => hui⟩
    · intro _; rw [user_influence, hmax, hr0, zero_div]
    · rw [hui]
    · rw [hui]; norm_num

/-- Witness for C7 on the batch with follower counts [0, 100, 200],
taken at the record with 200 followers. -/
theorem user_influence_spec_witness :
    (recC ∈ [recA, recB, recC] ∧ ∀ x ∈ [recA, recB, recC], 0 ≤ x.user_followers) ∧
    ((0 < batch_max_followers [recA, recB, recC] →
        user_influence [recA, recB, recC] recC =
          recC.user_followers / batch_max_followers [recA, recB, recC]) ∧
      (batch_max_followers [recA, recB, recC] = 0 →
        user_influence [recA, recB, recC] recC = recC.user_followers / 1) ∧
      0 ≤ user_influence [recA, recB, recC] recC ∧
      user_influence [recA, recB, recC] recC ≤ 1 ∧
      ((∀ x ∈ [recA, recB, recC], x.user_followers = 0) →
        user_influence [recA, recB, recC] recC = 0)) :=
  ⟨⟨by decide, by decide⟩,
    user_influence_spec [recA, recB, recC] recC (by decide) (by decide)⟩

/-- Claim C8: `recency_factor` (with the 30-day window used by the
scorer) is 1/2 when the timestamp fails to parse, and otherwise is the
piecewise function of the whole-day difference `d` between now and the
timestamp: 1 when `d ≤ 0`, 0 when `d ≥ 30`, else `1 - d / 30`. -/
theorem recency_factor_spec (parse : String → Option ℤ) (now : ℤ) (ts_str : String) :
    (parse ts_str = none → recency_factor parse now 30 ts_str = 1/2) ∧
    (∀ ts, parse ts_str = some ts →
      recency_factor parse now 30 ts_str =
        if Int.fdiv (now - ts) 86400 ≤ 0 then 1
        else if 30 ≤ Int.fdiv (now - ts) 86400 then 0
        else 1 - (Int.fdiv (now - ts) 86400 : ℚ) / 30) := by
  constructor
  · intro h
    unfold recency_factor
    rw [h]
  · intro ts h
    unfold recency_factor
    rw [h]
    norm_num [ge_iff_le]

/-- Witness for C8: both branches discharged on concrete inputs — a
parser that always fails, and a parser returning a 45-day-old
timestamp. -/
theorem recency_factor_spec_witness :
    recency_factor (fun _ => (none : Option ℤ)) 0 30 "not a date" = 1/2 ∧
    recency_factor (fun _ => (some 0 : Option ℤ)) (45 * 86400) 30 "2025-01-01 00:00:00" = 0 := by
  constructor
  · exact (recency_factor_spec (fun _ => none) 0 "not a date").1 rfl
  · have h := (recency_factor_spec (fun _ => some 0) (45 * 86400)
      "2025-01-01 00:00:00").2 0 rfl
    rw [h]
    norm_num [Int.fdiv]

lemma floor_le_roundHalfToEven (x : ℚ) : ⌊x⌋ ≤ roundHalfToEven x := by
  simp only [roundHalfToEven]
  split_ifs <;> omega

lemma roundHalfToEven_le_ceil (x : ℚ) : roundHalfToEven x ≤ ⌈x⌉ := by
  have hfc : ⌊x⌋ ≤ ⌈x⌉ := Int.floor_le_ceil x
  have hfl : (⌊x⌋ : ℚ) ≤ x := Int.floor_le x
  simp only [roundHalfToEven]
  split_ifs with h1 h2 h3
  · exact hfc
  · have hx : (⌊x⌋ : ℚ) < x := by
      rw [not_lt] at h1
      linarith
    exact Int.add_one_le_iff.mpr (Int.lt_ceil.mpr hx)
  · exact hfc
  · have hx : (⌊x⌋ : ℚ) < x := by
      rw [not_lt] at h1
      linarith
    exact Int.add_one_le_iff.mpr (Int.lt_ceil.mpr hx)

lemma round1_bounds {x : ℚ} (h0 : 0 ≤ x) (h100 : x ≤ 100) :
    0 ≤ round1 x ∧ round1 x ≤ 100 := by
  have hlo : (0 : ℤ) ≤ ⌊x * 10⌋ := Int.le_floor.mpr (by push_cast; linarith)
  have hhi : ⌈x * 10⌉ ≤ (1000 : ℤ) := Int.ceil_le.mpr (by push_cast; linarith)
  have h1 : (0 : ℤ) ≤ roundHalfToEven (x * 10) :=
    le_trans hlo (floor_le_roundHalfToEven _)
  have h2 : roundHalfToEven (x * 10) ≤ 1000 :=
    le_trans (roundHalfToEven_le_ceil _) hhi
  have h1q : (0 : ℚ) ≤ (roundHalfToEven (x * 10) : ℚ) := by exact_mod_cast h1
  have h2q : (roundHalfToEven (x * 10) : ℚ) ≤ 1000 := by exact_mod_cast h2
  unfold round1
  constructor <;> [positivity; linarith]

lemma clamp_bounds (x : ℚ) : 0 ≤ clamp x 0 100 ∧ clamp x 0 100 ≤ 100 := by
  unfold clamp
  exact ⟨le_min (le_max_right x 0) (by norm_num), min_le_right _ _⟩

/-- Claim C1: every record of a scored batch has an opportunity score
equal to `round1 (clamp ((0.50*K + 0.30*S + 0.15*U + 0.05*R) * 100) 0 100)`
of its stored factor columns; the score lies in [0, 100] and is an
integer multiple of 1/10 (one decimal place). -/
theorem opportunity_score_spec (compound : String → ℚ) (parse : String → Option ℤ)
    (now : ℤ) (df : List Interaction) (s : ScoredInteraction)
    (hs : s ∈ preprocess_and_score compound parse now df) :
    s.opportunity_score =
      round1 (clamp ((0.50 * s.keyword_factor + 0.30 * s.sentiment_factor
        + 0.15 * s.user_influence + 0.05 * s.recency_factor) * 100) 0 100) ∧
    0 ≤ s.opportunity_score ∧ s.opportunity_score ≤ 100 ∧
    ∃ n : ℤ, s.opportunity_score = (n : ℚ) / 10 := by
  rcases List.mem_map.mp hs with ⟨r, _, rfl⟩
  have hproj : (score_record compound parse now df r).opportunity_score =
      opportunity_score (score_record compound parse now df r).keyword_factor
        (score_record compound parse now df r).sentiment_factor
        (score_record compound parse now df r).user_influence
        (score_record compound parse now df r).recency_factor := rfl
  have hraw : ∀ k sf u rc : ℚ,
      raw_score k sf u rc = 0.50 * k + 0.30 * sf + 0.15 * u + 0.05 * rc := by
    intro k sf u rc
    unfold raw_score
    ring
  have hform : (score_record compound parse now df r).opportunity_score =
      round1 (clamp ((0.50 * (score_record compound parse now df r).keyword_factor
        + 0.30 * (score_record compound parse now df r).sentiment_factor
        + 0.15 * (score_record compound parse now df r).user_influence
        + 0.05 * (score_record compound parse now df r).recency_factor) * 100) 0 100) := by
    rw [hproj]
    unfold opportunity_score
    rw [hraw]
  refine ⟨hform, ?_, ?_, ?_⟩
  · rw [hform]
    exact (round1_bounds (clamp_bounds _).1 (clamp_bounds _).2).1
  · rw [hform]
    exact (round1_bounds (clamp_bounds _).1 (clamp_bounds _).2).2
  · refine ⟨roundHalfToEven
      (clamp ((0.50 * (score_record compound parse now df r).keyword_factor
        + 0.30 * (score_record compound parse now df r).sentiment_factor
        + 0.15 * (score_record compound parse now df r).user_influence
        + 0.05 * (score_record compound parse now df r).recency_factor) * 100) 0 100 * 10), ?_⟩
    rw [hform]
    rfl

/-- Witness for C1 on the singleton batch `[recC]`. -/
theorem opportunity_score_spec_witness :
    score_record compound0 parse0 0 [recC] recC ∈
      preprocess_and_score compound0 parse0 0 [recC] ∧
    ((score_record compound0 parse0 0 [recC] recC).opportunity_score =
      round1 (clamp ((0.50 * (score_record compound0 parse0 0 [recC] recC).keyword_factor
        + 0.30 * (score_record compound0 parse0 0 [recC] recC).sentiment_factor
        + 0.15 * (score_record compound0 parse0 0 [recC] recC).user_influence
        + 0.05 * (score_record compound0 parse0 0 [recC] recC).recency_factor) * 100) 0 100) ∧
      0 ≤ (score_record compound0 parse0 0 [recC] recC).opportunity_score ∧
      (score_record compound0 parse0 0 [recC] recC).opportunity_score ≤ 100 ∧
      ∃ n : ℤ, (score_record compound0 parse0 0 [recC] recC).opportunity_score = (n : ℚ) / 10) :=
  have hm : score_record compound0 parse0 0 [recC] recC ∈
      preprocess_and_score compound0 parse0 0 [recC] :=
    List.mem_map_of_mem _ (List.mem_singleton.mpr rfl)
  ⟨hm, opportunity_score_spec compound0 parse0 0 [recC] _ hm⟩

/-- Counterexample to C3: a batch containing a record whose required
field `text_content` is missing is not aborted and no error is raised;
`load_data` passes the record through unchanged, the missing text is
silently defaulted to the string "nan", and the record is scored
(here to 35/2 = 17.5). -/
theorem load_data_missing_field_scored :
    load_data [] [rec_missing_text] = [rec_missing_text] ∧
    strOfText rec_missing_text.text_content = "nan" ∧
    (preprocess_and_score compound0 parse0 0 (load_data [] [rec_missing_text])).map
      ScoredInteraction.opportunity_score = [35/2] := by
  refine ⟨rfl, rfl, ?_⟩
  have hmap : (preprocess_and_score compound0 parse0 0 (load_data [] [rec_missing_text])).map
      ScoredInteraction.opportunity_score =
      [opportunity_score (keyword_factor (strOfText rec_missing_text.text_content))
        (sentiment_factor (compound0 (strOfText rec_missing_text.text_content)))
        (user_influence [rec_missing_text] rec_missing_text)
        (recency_factor parse0 0 30 rec_missing_text.timestamp)] := rfl
  rw [hmap]
  have hk : keyword_factor (strOfText rec_missing_text.text_content) = 0 := by
    have hany : (HIGH_VALUE_KEYWORDS.any fun kw =>
        containsSubstr (lower (strOfText rec_missing_text.text_content)) kw) = false := by
      decide
    unfold keyword_factor
    simp [hany]
  have hsf : sentiment_factor (compound0 (strOfText rec_missing_text.text_content)) = 0 := by
    unfold sentiment_factor compound0
    norm_num
  have hbm : batch_max_followers [rec_missing_text] = 5 := by
    show max rec_missing_text.user_followers 0 = 5
    rw [show rec_missing_text.user_followers = 5 from rfl]
    exact max_eq_left (by norm_num)
  have hmf : max_followers [rec_missing_text] = 5 := by
    unfold max_followers
    rw [hbm]
    norm_num
  have hu : user_influence [rec_missing_text] rec_missing_text = 1 := by
    unfold user_influence
    rw [hmf, show rec_missing_text.user_followers = 5 from rfl]
    norm_num
  have hrc : recency_factor parse0 0 30 rec_missing_text.timestamp = 1/2 := rfl
  rw [hk, hsf, hu, hrc]
  have hone : opportunity_score 0 0 1 (1/2) = 35/2 := by
    unfold opportunity_score raw_score clamp
    have h1 : ((0 : ℚ) * 0.50 + 0 * 0.30 + 1 * 0.15 + 1/2 * 0.05) * 100 = 35/2 := by
      norm_num
    rw [h1, max_eq_left (by norm_num : (0:ℚ) ≤ 35/2),
      min_eq_left (by norm_num : (35/2:ℚ) ≤ 100)]
    unfold round1
    have h2 : (35/2 : ℚ) * 10 = 175 := by norm_num
    rw [h2]
    have h3 : roundHalfToEven 175 = 175 := by
      simp only [roundHalfToEven]
      have hf : ⌊(175 : ℚ)⌋ = 175 := by norm_num
      rw [hf]
      norm_num
    rw [h3]
    norm_num
  rw [hone]

/-- Amended C3: normalization performs no required-field validation —
it concatenates the two sources, preserving every record, and the
scorer then scores every record of the combined batch, so a record with
a missing field is processed (with the pandas missing value) rather
than rejected. -/
theorem load_data_no_validation (insta_df twitter_df : List Interaction)
    (compound : String → ℚ) (parse : String → Option ℤ) (now : ℤ) :
    load_data insta_df twitter_df = insta_df ++ twitter_df ∧
    (preprocess_and_score compound parse now (load_data insta_df twitter_df)).length =
      insta_df.length + twitter_df.length := by
  refine ⟨rfl, ?_⟩
  unfold preprocess_and_score load_data
  rw [List.length_map, List.length_append]

/-- Counterexample to C4: passing the invalid action value "SHRUG" to
`log_action` does not fail fast — an entry recording "SHRUG" is
appended to the log. -/
theorem log_action_invalid_action_appended :
    (log_action [] recC "SHRUG" "draft" "draft" "2025-02-01 09:00:00").length = 1 ∧
    (log_action [] recC "SHRUG" "draft" "draft" "2025-02-01 09:00:00").map
      LogEntry.action = ["SHRUG"] :=
  ⟨rfl, rfl⟩

/-- Amended C4: `log_action` validates nothing — for every action
string (valid or not) it appends exactly one entry recording that
action, leaving the existing log unchanged. -/
theorem log_action_appends_any_action (logs : List LogEntry) (row : Interaction)
    (action oreply freply now_str : String) :
    (log_action logs row action oreply freply now_str).length = logs.length + 1 ∧
    (log_action logs row action oreply freply now_str).take logs.length = logs ∧
    (log_action logs row action oreply freply now_str).drop logs.length =
      [{ timestamp := now_str
         interaction_id := row.interaction_id
         platform := row.platform
         user_handle := handleStr row.user_handle
         action := action
         original_reply := oreply
         final_reply := freply }] := by
  unfold log_action
  refine ⟨?_, ?_, ?_⟩
  · rw [List.length_append]
    rfl
  · exact List.take_left logs _
  · exact List.drop_left logs _

set_option maxRecDepth 8192

/-- Counterexample to C9: the reply is never addressed to the default
"@collector" in either case the claim names — for a commission-keyword
interaction whose `user_handle` is present but empty, the reply is
addressed to the empty string, and for one whose `user_handle` is
missing from the source (a pandas `NaN`, which `row.get` returns
instead of the default since the column exists), the reply is addressed
to "nan". -/
theorem generate_reply_empty_handle_not_default :
    (generate_reply rec_empty_handle = commission_reply "" ∧
      generate_reply rec_empty_handle ≠ commission_reply "@collector") ∧
    (generate_reply rec_no_handle = commission_reply "nan" ∧
      generate_reply rec_no_handle ≠ commission_reply "@collector") := by
  have hb1 : (COMMISSION_KEYWORDS.any fun kw =>
      containsSubstr (lower (strOfText rec_empty_handle.text_content)) kw) = true := by
    decide
  have hb2 : (COMMISSION_KEYWORDS.any fun kw =>
      containsSubstr (lower (strOfText rec_no_handle.text_content)) kw) = true := by
    decide
  have h1 : generate_reply rec_empty_handle = commission_reply "" := by
    simp only [generate_reply]
    rw [if_pos hb1]
    rfl
  have h2 : generate_reply rec_no_handle = commission_reply "nan" := by
    simp only [generate_reply]
    rw [if_pos hb2]
    rfl
  refine ⟨⟨h1, ?_⟩, ⟨h2, ?_⟩⟩
  · rw [h1]
    intro he
    have hlen : (commission_reply "").length = (commission_reply "@collector").length :=
      congrArg String.length he
    have hne : (commission_reply "").length ≠ (commission_reply "@collector").length := by
      decide
    exact hne hlen
  · rw [h2]
    intro he
    have hlen : (commission_reply "nan").length = (commission_reply "@collector").length :=
      congrArg String.length he
    have hne : (commission_reply "nan").length ≠ (commission_reply "@collector").length := by
      decide
    exact hne hlen

/-- Amended C9: for every interaction whose text contains a commission
keyword, the drafted reply is the commission template addressed to the
`user_handle` value as the f-string renders it — the handle itself when
the field is present (even when empty), and the string "nan" when the
field is missing from the source (`row.get` returns the present pandas
`NaN`, not the "@collector" default, since the column exists). -/
theorem generate_reply_commission_spec (row : Interaction)
    (h : ∃ kw ∈ COMMISSION_KEYWORDS,
      kw.toList <:+: (lower (strOfText row.text_content)).toList) :
    generate_reply row = commission_reply (replyHandle row.user_handle) ∧
    (row.user_handle = none → generate_reply row = commission_reply "nan") := by
  have hb : (COMMISSION_KEYWORDS.any fun kw =>
      containsSubstr (lower (strOfText row.text_content)) kw) = true := by
    rw [List.any_eq_true]
    rcases h with ⟨kw, hkw, hinf⟩
    exact ⟨kw, hkw, (containsSubstr_iff _ _).mpr hinf⟩
  have h1 : generate_reply row = commission_reply (replyHandle row.user_handle) := by
    simp only [generate_reply]
    rw [if_pos hb]
  refine ⟨h1, fun hn => ?_⟩
  rw [h1, hn]
  rfl

/-- Witness for the amended C9 at a record with a commission keyword
and a `user_handle` missing from the source. -/
theorem generate_reply_commission_spec_witness :
    (∃ kw ∈ COMMISSION_KEYWORDS,
      kw.toList <:+: (lower (strOfText rec_no_handle.text_content)).toList) ∧
    generate_reply rec_no_handle = commission_reply (replyHandle rec_no_handle.user_handle) ∧
    generate_reply rec_no_handle = commission_reply "nan" := by
  have h : ∃ kw ∈ COMMISSION_KEYWORDS,
      kw.toList <:+: (lower (strOfText rec_no_handle.text_content)).toList :=
    ⟨"prints", by decide, by decide⟩
  exact ⟨h, (generate_reply_commission_spec rec_no_handle h).1,
    (generate_reply_commission_spec rec_no_handle h).2 rfl⟩

/-- Claim C10: the approval-rate metric is total — it is 0 when no
action has been acted on (no division is attempted), and otherwise it
is `(approve + edit) / acted_on * 100`. -/
theorem approval_rate_total_metric (logs : List LogEntry) :
    (acted_on_count logs = 0 → approval_rate logs = 0) ∧
    (0 < acted_on_count logs → approval_rate logs =
      ((approve_count logs : ℚ) + (edit_count logs : ℚ)) /
        (acted_on_count logs : ℚ) * 100) := by
  constructor
  · intro h
    unfold approval_rate
    rw [if_neg (by omega)]
  · intro h
    unfold approval_rate
    rw [if_pos h]

/-- Witness for C10: the empty log has approval rate 0. -/
theorem approval_rate_total_metric_witness :
    acted_on_count [] = 0 ∧ approval_rate [] = 0 :=
  ⟨rfl, (approval_rate_total_metric []).1 rfl⟩

end ArtConnect
